import Mathlib

/-
Verification development for the storefront checkout core:
pricing evaluator, coupon validator, order assembler, payment
confirmation state machine and cart release, embedded shallowly
from the TypeScript source (Products.tsx checkout page, the admin
product page, the payment and payment confirmation pages).

Numbers are modelled as rationals.  JavaScript truthiness on
optional numeric and string fields (null, undefined and 0 or the
empty string are falsy) is made explicit through the jsOr helpers.
Store writes are modelled as explicit state passing on a Store
record; fallible store calls take Bool flags that inject the
success or failure of each write.
-/

/-- JS expression a || b for an optional numeric a: null, undefined and 0 are falsy. -/
def jsOrQ (a : Option ℚ) (b : ℚ) : ℚ :=
  match a with
  | some v => if v = 0 then b else v
  | none => b

/-- JS expression a || b for an optional string a: null, undefined and the empty string are falsy. -/
def jsOrStr (a : Option String) (b : String) : String :=
  match a with
  | some s => if s = "" then b else s
  | none => b

/-- JS expression a || null for an optional string a. -/
def jsToNullStr (a : Option String) : Option String :=
  match a with
  | some s => if s = "" then none else some s
  | none => none

/-- JS expression a || b || null for optional strings a and b. -/
def jsOrOptStr (a b : Option String) : Option String :=
  match a with
  | some s => if s = "" then jsToNullStr b else some s
  | none => jsToNullStr b

/-- JS toUpperCase, restricted to ASCII as Char.toUpper is: every
character of the string is uppercased. -/
def jsToUpper (s : String) : String := String.mk (s.data.map Char.toUpper)

/-- Product row, restricted to the columns the checkout core reads.
Both unit prices are optional so that a null column can be modelled. -/
structure Product where
  id : String
  name : String
  price_per_litre : Option ℚ
  offer_price_per_litre : Option ℚ
  measurement_title : Option String
deriving DecidableEq

/-- Cart row as returned by the cart query, with the joined product
record (missing when the join produced no row). -/
structure CartItem where
  user_id : String
  product_id : String
  quantity_litres : ℚ
  variant_selection : Option String
  measurement_label : Option String
  measurement_value : Option String
  products : Option Product
deriving DecidableEq

inductive DiscountType where
  | percentage
  | fixed
deriving DecidableEq

/-- Coupon row. valid_until is a timestamp modelled as a natural number. -/
structure Coupon where
  code : String
  discount_type : DiscountType
  discount_value : ℚ
  min_order_amount : Option ℚ
  max_discount_amount : Option ℚ
  valid_until : Option Nat
  is_active : Bool
deriving DecidableEq

/-- Order row as inserted by the checkout page. -/
structure Order where
  id : String
  user_id : String
  order_number : String
  total_amount : ℚ
  discount_amount : ℚ
  final_amount : ℚ
  coupon_code : Option String
  shipping_address : String
  status : String
  payment_status : String
deriving DecidableEq

/-- Order line item row as inserted by the checkout page. -/
structure OrderItem where
  order_id : String
  product_id : String
  product_name : String
  quantity_litres : ℚ
  price_per_litre : ℚ
  total_price : ℚ
  variant_selection : Option String
  measurement_label : Option String
  measurement_value : Option String
deriving DecidableEq

/-- The relational store: the five tables the checkout core touches. -/
structure Store where
  products : List Product
  coupons : List Coupon
  cart_items : List CartItem
  orders : List Order
  order_items : List OrderItem
deriving DecidableEq

/-- Checkout page subtotal: cartItems.reduce with
item.products?.offer_price_per_litre || item.products?.price_per_litre || 0
times quantity_litres, starting from 0. -/
def subtotal (cartItems : List CartItem) : ℚ :=
  cartItems.foldl
    (fun sum item =>
      sum +
        jsOrQ (item.products.bind Product.offer_price_per_litre)
          (jsOrQ (item.products.bind Product.price_per_litre) 0) *
          item.quantity_litres)
    0

/-- Checkout page discount: 0 with no coupon; for a percentage coupon
Math.min(subtotal * value / 100, max_discount_amount || Infinity); for a
fixed coupon the raw discount_value. -/
def discount (appliedCoupon : Option Coupon) (sub : ℚ) : ℚ :=
  match appliedCoupon with
  | none => 0
  | some c =>
    match c.discount_type with
    | DiscountType.percentage =>
      match c.max_discount_amount with
      | some m =>
        if m = 0 then sub * c.discount_value / 100
        else min (sub * c.discount_value / 100) m
      | none => sub * c.discount_value / 100
    | DiscountType.fixed => c.discount_value

/-- One order_items row built from a cart line, exactly as in the
orderItems map of createSupabaseOrder. -/
def mkOrderItem (oid : String) (item : CartItem) : OrderItem :=
  { order_id := oid
    product_id := item.product_id
    product_name := jsOrStr (item.products.map Product.name) ""
    quantity_litres := item.quantity_litres
    price_per_litre :=
      jsOrQ (item.products.bind Product.offer_price_per_litre)
        (jsOrQ (item.products.bind Product.price_per_litre) 0)
    total_price :=
      jsOrQ (item.products.bind Product.offer_price_per_litre)
        (jsOrQ (item.products.bind Product.price_per_litre) 0) *
        item.quantity_litres
    variant_selection := jsToNullStr item.variant_selection
    measurement_label :=
      jsOrOptStr item.measurement_label (item.products.bind Product.measurement_title)
    measurement_value := jsToNullStr item.measurement_value }

inductive OrderError where
  | cartEmpty
  | orderInsertFailed
  | itemsInsertFailed
deriving DecidableEq

/-- The orders row inserted by createSupabaseOrder: pending status,
pending payment_status, totals from the pricing evaluator. -/
def pendingOrder (uid : String) (cartItems : List CartItem)
    (appliedCoupon : Option Coupon) (address orderNumber oid : String) : Order :=
  { id := oid
    user_id := uid
    order_number := orderNumber
    total_amount := subtotal cartItems
    discount_amount := discount appliedCoupon (subtotal cartItems)
    final_amount := subtotal cartItems - discount appliedCoupon (subtotal cartItems)
    coupon_code := appliedCoupon.map Coupon.code
    shipping_address := address
    status := "pending"
    payment_status := "pending" }

/-- createSupabaseOrder: throws when there is no user or the cart is
empty, inserts one orders row in pending state, then inserts the
order_items rows.  orderNumber and oid stand for the generated order
number and the row id returned by the store; orderInsertOk and
itemsInsertOk inject the outcome of the two writes.  The returned
Store is the post state, order row included even when the later
items write fails. -/
def createSupabaseOrder (user : Option String) (cartItems : List CartItem)
    (appliedCoupon : Option Coupon) (address orderNumber oid : String)
    (orderInsertOk itemsInsertOk : Bool) (s : Store) :
    Except OrderError Order × Store :=
  match user with
  | none => (Except.error OrderError.cartEmpty, s)
  | some uid =>
    if cartItems.isEmpty then (Except.error OrderError.cartEmpty, s)
    else if orderInsertOk then
      let order : Order := pendingOrder uid cartItems appliedCoupon address orderNumber oid
      let s1 : Store := { s with orders := s.orders ++ [order] }
      if itemsInsertOk then
        (Except.ok order,
          { s1 with order_items := s1.order_items ++ cartItems.map (mkOrderItem oid) })
      else (Except.error OrderError.itemsInsertFailed, s1)
    else (Except.error OrderError.orderInsertFailed, s)

inductive PlaceError where
  | loginRequired
  | validationAddress
  | cartEmpty
  | storeOrderError
  | storeItemsError
deriving DecidableEq

def mapOrderError : OrderError → PlaceError
  | OrderError.cartEmpty => PlaceError.cartEmpty
  | OrderError.orderInsertFailed => PlaceError.storeOrderError
  | OrderError.itemsInsertFailed => PlaceError.storeItemsError

/-- placeOrderMutation: login check, then the zod address validation
(minimum 10 characters), then the empty cart check, then
createSupabaseOrder. -/
def placeOrder (user : Option String) (address : String) (cartItems : List CartItem)
    (appliedCoupon : Option Coupon) (orderNumber oid : String)
    (orderInsertOk itemsInsertOk : Bool) (s : Store) :
    Except PlaceError Order × Store :=
  match user with
  | none => (Except.error PlaceError.loginRequired, s)
  | some uid =>
    if address.length < 10 then (Except.error PlaceError.validationAddress, s)
    else if cartItems.isEmpty then (Except.error PlaceError.cartEmpty, s)
    else
      match createSupabaseOrder (some uid) cartItems appliedCoupon address
          orderNumber oid orderInsertOk itemsInsertOk s with
      | (Except.ok o, s2) => (Except.ok o, s2)
      | (Except.error e, s2) => (Except.error (mapOrderError e), s2)

inductive CouponRejection where
  | invalidCode
  | belowMinimum (m : ℚ)
  | expired
deriving DecidableEq

/-- Coupon lookup of applyCouponMutation: select where code equals the
uppercased input and is_active is true (maybeSingle, so the first
matching row). -/
def lookupCoupon (coupons : List Coupon) (input : String) : Option Coupon :=
  coupons.find? (fun c => decide (c.code = jsToUpper input) && c.is_active)

/-- The guard data.min_order_amount && subtotal < data.min_order_amount:
a null or zero min_order_amount is falsy and skips the check. -/
def minCheckFails (c : Coupon) (sub : ℚ) : Bool :=
  match c.min_order_amount with
  | some m => decide (m ≠ 0) && decide (sub < m)
  | none => false

/-- The guard data.valid_until && new Date(data.valid_until) < new Date():
expired when valid_until is set and strictly in the past. -/
def expiryCheckFails (c : Coupon) (now : Nat) : Bool :=
  match c.valid_until with
  | some t => decide (t < now)
  | none => false

/-- Body of applyCouponMutation: look the code up, then the minimum
order check, then the expiry check, short-circuiting in that order. -/
def validateCoupon (coupons : List Coupon) (input : String) (sub : ℚ)
    (now : Nat) : Except CouponRejection Coupon :=
  match lookupCoupon coupons input with
  | none => Except.error CouponRejection.invalidCode
  | some c =>
    if minCheckFails c sub then
      Except.error (CouponRejection.belowMinimum (c.min_order_amount.getD 0))
    else if expiryCheckFails c now then Except.error CouponRejection.expired
    else Except.ok c

/-- applyCouponMutation paired with the store it runs against: the
mutation only issues a select, so the store is returned unchanged. -/
def applyCouponMutation (s : Store) (input : String) (sub : ℚ) (now : Nat) :
    Except CouponRejection Coupon × Store :=
  (validateCoupon s.coupons input sub now, s)

/-- Form values of the admin product editor, projected to the columns
the checkout core reads. -/
structure ProductForm where
  name : String
  price_per_litre : ℚ
  offer_price_per_litre : Option ℚ
  measurement_title : Option String
deriving DecidableEq

/-- The update payload of saveProductMutation applied to one products row. -/
def applyProductForm (f : ProductForm) (p : Product) : Product :=
  { p with
    name := f.name
    price_per_litre := some f.price_per_litre
    offer_price_per_litre := f.offer_price_per_litre
    measurement_title := f.measurement_title }

/-- Admin product update: supabase.from(products).update(...).eq(id, pid). -/
def updateProductMutation (s : Store) (pid : String) (f : ProductForm) : Store :=
  { s with
    products := s.products.map (fun p => if p.id = pid then applyProductForm f p else p) }

/-- Admin product deletion: supabase.from(products).delete().eq(id, pid). -/
def deleteProductMutation (s : Store) (pid : String) : Store :=
  { s with products := s.products.filter (fun p => decide (p.id ≠ pid)) }

/-- Cart release: delete from cart_items where user_id equals the user. -/
def releaseCart (uid : String) (s : Store) : Store :=
  { s with cart_items := s.cart_items.filter (fun ci => decide (ci.user_id ≠ uid)) }

/-- completeMutation of the payment confirmation page: no-op without a
user, otherwise the cart release deletion.  It issues no other write. -/
def completeMutation (user : Option String) (s : Store) : Store :=
  match user with
  | none => s
  | some uid => releaseCart uid s

/-- State of the payment confirmation page: the utr input, the sending
flag set when the WhatsApp hand-off button is clicked, the instant of
that click, the canComplete flag set by the 3000 ms timer, the instant
of the Completed click, and the current time.  sentUtr records the utr
captured inside the WhatsApp message at hand-off time (the message is
built from the utr value current at the click). -/
structure PCState where
  now : Nat
  utr : String
  sending : Bool
  sentAt : Option Nat
  sentUtr : Option String
  canComplete : Bool
  completedAt : Option Nat
deriving DecidableEq

/-- Events of the payment confirmation page. -/
inductive PCEvent where
  | setUtr (s : String)
  | clickSend
  | timerFire
  | clickComplete
deriving DecidableEq

/-- Initial page state: empty utr, not sending, completion locked. -/
def pcInit : PCState :=
  { now := 0
    utr := ""
    sending := false
    sentAt := none
    sentUtr := none
    canComplete := false
    completedAt := none }

/-- One step of the payment confirmation page at time t.  Guards are the
disabled conditions of the source: the send button needs a non-empty
utr and not sending; the timer fires only once sending is set and
3000 ms have elapsed since the hand-off; the Completed button needs
canComplete.  Time never goes backwards. -/
def pcStep (st : PCState) (t : Nat) (e : PCEvent) : Option PCState :=
  if t < st.now then none
  else
    match e with
    | PCEvent.setUtr v => some { st with now := t, utr := v }
    | PCEvent.clickSend =>
      if st.utr ≠ "" ∧ st.sending = false then
        some { st with
          now := t
          sending := true
          sentAt := some t
          sentUtr := some st.utr }
      else none
    | PCEvent.timerFire =>
      match st.sentAt with
      | some ts =>
        if st.sending = true ∧ ts + 3000 ≤ t then
          some { st with now := t, canComplete := true }
        else none
      | none => none
    | PCEvent.clickComplete =>
      if st.canComplete = true then some { st with now := t, completedAt := some t }
      else none

/-- Run a timed event trace from the initial page state. -/
def pcRun (tr : List (Nat × PCEvent)) : Option PCState :=
  tr.foldl (fun acc e => acc.bind (fun st => pcStep st e.1 e.2)) (some pcInit)

/-- Modelled from the spec wording of the claim: effective unit price is
the offer price only when present and lower than the list price,
otherwise the list price.  Compared against the source pricing. -/
def effectiveUnitPriceClaim (p : Product) : ℚ :=
  match p.offer_price_per_litre with
  | some o => if o < p.price_per_litre.getD 0 then o else p.price_per_litre.getD 0
  | none => p.price_per_litre.getD 0

/-- Effective unit price as the code actually computes it: the offer
price whenever present and non-zero, else the list price when present
and non-zero, else 0; a missing joined product yields 0. -/
def effectiveUnitPrice (p : Option Product) : ℚ :=
  match p with
  | none => 0
  | some pr =>
    match pr.offer_price_per_litre with
    | some o =>
      if o ≠ 0 then o
      else
        match pr.price_per_litre with
        | some l => if l ≠ 0 then l else 0
        | none => 0
    | none =>
      match pr.price_per_litre with
      | some l => if l ≠ 0 then l else 0
      | none => 0

/-- Modelled from the spec wording of the claim: coupon lookup by
case-insensitive exact code match among active coupons.  Compared
against the source lookup. -/
def lookupCouponClaim (coupons : List Coupon) (input : String) : Option Coupon :=
  coupons.find? (fun c => decide (jsToUpper c.code = jsToUpper input) && c.is_active)

/-- Product with an offer price above the list price, for the pricing counterexample. -/
def prodOfferHigh : Product :=
  { id := "p1"
    name := "Sunflower Oil"
    price_per_litre := some 100
    offer_price_per_litre := some 200
    measurement_title := none }

/-- Cart line of one unit of prodOfferHigh. -/
def itemOfferHigh : CartItem :=
  { user_id := "u1"
    product_id := "p1"
    quantity_litres := 1
    variant_selection := none
    measurement_label := none
    measurement_value := none
    products := some prodOfferHigh }

/-- Fixed coupon worth 200, used against a subtotal of 150. -/
def couponFixed200 : Coupon :=
  { code := "FLAT200"
    discount_type := DiscountType.fixed
    discount_value := 200
    min_order_amount := none
    max_discount_amount := none
    valid_until := none
    is_active := true }

/-- Percentage coupon whose max_discount_amount is set to 0. -/
def couponPctCapZero : Coupon :=
  { code := "PCT50"
    discount_type := DiscountType.percentage
    discount_value := 50
    min_order_amount := none
    max_discount_amount := some 0
    valid_until := none
    is_active := true }

/-- Percentage coupon 20 percent capped at 150. -/
def couponPctCap150 : Coupon :=
  { code := "SAVE20"
    discount_type := DiscountType.percentage
    discount_value := 20
    min_order_amount := none
    max_discount_amount := some 150
    valid_until := none
    is_active := true }

/-- Active coupon stored with a lowercase code. -/
def couponLowerCode : Coupon :=
  { code := "save10"
    discount_type := DiscountType.percentage
    discount_value := 10
    min_order_amount := none
    max_discount_amount := none
    valid_until := none
    is_active := true }

/-- Active coupon whose min_order_amount is set to 0. -/
def couponMinZero : Coupon :=
  { code := "MINZERO"
    discount_type := DiscountType.fixed
    discount_value := 5
    min_order_amount := some 0
    max_discount_amount := none
    valid_until := none
    is_active := true }

/-- Active coupon with a minimum order amount of 500. -/
def couponMin500 : Coupon :=
  { code := "SAVEBIG"
    discount_type := DiscountType.fixed
    discount_value := 50
    min_order_amount := some 500
    max_discount_amount := none
    valid_until := none
    is_active := true }

/-- Active coupon that expired at time 5. -/
def couponExpired : Coupon :=
  { code := "OLDCODE"
    discount_type := DiscountType.fixed
    discount_value := 50
    min_order_amount := none
    max_discount_amount := none
    valid_until := some 5
    is_active := true }

/-- Pending order used in the completion counterexample. -/
def orderPendingExample : Order :=
  { id := "o1"
    user_id := "u1"
    order_number := "ORD-1-1"
    total_amount := 100
    discount_amount := 0
    final_amount := 100
    coupon_code := none
    shipping_address := "12 Long Street, Oil Town"
    status := "pending"
    payment_status := "pending" }

/-- Cart row of user u1 with no joined product. -/
def cartRowU1 : CartItem :=
  { user_id := "u1"
    product_id := "p9"
    quantity_litres := 2
    variant_selection := none
    measurement_label := none
    measurement_value := none
    products := none }

/-- Cart row of user u2 with no joined product. -/
def cartRowU2 : CartItem :=
  { user_id := "u2"
    product_id := "p9"
    quantity_litres := 3
    variant_selection := none
    measurement_label := none
    measurement_value := none
    products := none }

/-- Store holding one pending order and the carts of two users. -/
def storePendingExample : Store :=
  { products := []
    coupons := []
    cart_items := [cartRowU1, cartRowU2]
    orders := [orderPendingExample]
    order_items := [] }

/-- The empty store. -/
def storeEmpty : Store :=
  { products := []
    coupons := []
    cart_items := []
    orders := []
    order_items := [] }

/-- Trace of the payment confirmation page in which the user enters a
reference, sends the WhatsApp message and completes after the cooldown. -/
def pcTraceW : List (Nat × PCEvent) :=
  [(0, PCEvent.setUtr "TX1"), (1, PCEvent.clickSend),
   (3001, PCEvent.timerFire), (3002, PCEvent.clickComplete)]

/-- Final state of pcTraceW. -/
def pcStateW : PCState :=
  { now := 3002
    utr := "TX1"
    sending := true
    sentAt := some 1
    sentUtr := some "TX1"
    canComplete := true
    completedAt := some 3002 }

/-- The pending order created from cart [cartRowU1] on the empty store. -/
def orderW7 : Order :=
  { id := "o1"
    user_id := "u1"
    order_number := "ORD-1"
    total_amount := 0
    discount_amount := 0
    final_amount := 0
    coupon_code := none
    shipping_address := "addr1"
    status := "pending"
    payment_status := "pending" }

/-- The pending order created from cart [itemOfferHigh] on the empty store. -/
def orderW2 : Order :=
  { id := "o1"
    user_id := "u1"
    order_number := "ORD-1"
    total_amount := 200
    discount_amount := 0
    final_amount := 200
    coupon_code := none
    shipping_address := "addr1"
    status := "pending"
    payment_status := "pending" }

/-- The store after creating orderW2 and its single line item. -/
def storeW2 : Store :=
  { products := []
    coupons := []
    cart_items := []
    orders := [orderW2]
    order_items := [mkOrderItem "o1" itemOfferHigh] }


/-- The source pricing expression of the checkout page coincides with
effectiveUnitPrice. -/
theorem jsOr_price_eq_effective (p : Option Product) :
    jsOrQ (p.bind Product.offer_price_per_litre)
      (jsOrQ (p.bind Product.price_per_litre) 0) = effectiveUnitPrice p := by
  cases p with
  | none => rfl
  | some pr =>
    cases ho : pr.offer_price_per_litre with
    | none =>
      cases hl : pr.price_per_litre with
      | none => simp [jsOrQ, effectiveUnitPrice, ho, hl]
      | some l =>
        by_cases hz : l = 0 <;> simp [jsOrQ, effectiveUnitPrice, ho, hl, hz]
    | some o =>
      by_cases hoz : o = 0
      · cases hl : pr.price_per_litre with
        | none => simp [jsOrQ, effectiveUnitPrice, ho, hl, hoz]
        | some l =>
          by_cases hz : l = 0 <;> simp [jsOrQ, effectiveUnitPrice, ho, hl, hoz, hz]
      · simp [jsOrQ, effectiveUnitPrice, ho, hoz]

/-- The snapshotted unit price of an order item is the effective unit price. -/
theorem mkOrderItem_price (oid : String) (item : CartItem) :
    (mkOrderItem oid item).price_per_litre = effectiveUnitPrice item.products := by
  simp [mkOrderItem, jsOr_price_eq_effective]

/-- The snapshotted line total of an order item is effective unit price
times quantity. -/
theorem mkOrderItem_total (oid : String) (item : CartItem) :
    (mkOrderItem oid item).total_price
      = effectiveUnitPrice item.products * item.quantity_litres := by
  simp [mkOrderItem, jsOr_price_eq_effective]

/-- Left fold of rational additions equals the initial value plus the
sum of the mapped list. -/
theorem foldl_add_eq (f : CartItem → ℚ) (l : List CartItem) (a : ℚ) :
    l.foldl (fun s x => s + f x) a = a + (l.map f).sum := by
  induction l generalizing a with
  | nil => simp
  | cons x xs ih => simp [List.foldl_cons, ih]; ring

/-- The checkout subtotal is the sum of effective unit price times
quantity over the cart lines. -/
theorem subtotal_eq_sum (cart : List CartItem) :
    subtotal cart
      = (cart.map (fun i => effectiveUnitPrice i.products * i.quantity_litres)).sum := by
  unfold subtotal
  rw [foldl_add_eq
    (fun item =>
      jsOrQ (item.products.bind Product.offer_price_per_litre)
        (jsOrQ (item.products.bind Product.price_per_litre) 0) * item.quantity_litres)]
  simp [jsOr_price_eq_effective]

/-- Claim C1, counterexample: the claim as stated fails because the code
uses JS truthiness rather than a comparison with the list price.  With
an offer price of 200 against a list price of 100, both the subtotal
and the OrderItem snapshot use 200, while the claim requires the list
price 100. -/
theorem C1_counterexample :
    subtotal [itemOfferHigh] = 200
    ∧ (mkOrderItem "o1" itemOfferHigh).price_per_litre = 200
    ∧ (mkOrderItem "o1" itemOfferHigh).total_price = 200
    ∧ effectiveUnitPriceClaim prodOfferHigh = 100
    ∧ (200 : ℚ) ≠ 100 := by
  refine ⟨?_, ?_, ?_, ?_, ?_⟩
  · simp [subtotal, itemOfferHigh, prodOfferHigh, jsOrQ]
  · simp [mkOrderItem, itemOfferHigh, prodOfferHigh, jsOrQ]
  · simp [mkOrderItem, itemOfferHigh, prodOfferHigh, jsOrQ]
  · simp [effectiveUnitPriceClaim, prodOfferHigh]
    norm_num
  · norm_num

/-- Claim C1, amended: the effective unit price used both for the
subtotal and for the OrderItem price snapshot equals the offer price
whenever it is present and non-zero, even when it is not lower than the
list price; otherwise the list price when present and non-zero;
otherwise 0. -/
theorem C1_pricing_amended :
    (∀ cart : List CartItem,
      subtotal cart
        = (cart.map (fun i => effectiveUnitPrice i.products * i.quantity_litres)).sum)
    ∧ (∀ (oid : String) (item : CartItem),
      (mkOrderItem oid item).price_per_litre = effectiveUnitPrice item.products
      ∧ (mkOrderItem oid item).total_price
          = effectiveUnitPrice item.products * item.quantity_litres) :=
  ⟨subtotal_eq_sum, fun oid item => ⟨mkOrderItem_price oid item, mkOrderItem_total oid item⟩⟩

/-- Claim C10, confirmed: a cart line with a missing joined product, or
with offer and list unit prices both null or zero, contributes zero to
the subtotal, yields an OrderItem with price_per_litre 0 and
total_price 0, and checkout still succeeds on such a cart. -/
theorem C10_zero_price_line :
    ∀ (item : CartItem) (oid : String) (rest : List CartItem),
    (item.products = none ∨
      ((item.products.bind Product.offer_price_per_litre = none
          ∨ item.products.bind Product.offer_price_per_litre = some 0)
        ∧ (item.products.bind Product.price_per_litre = none
          ∨ item.products.bind Product.price_per_litre = some 0))) →
    effectiveUnitPrice item.products = 0
    ∧ (mkOrderItem oid item).price_per_litre = 0
    ∧ (mkOrderItem oid item).total_price = 0
    ∧ subtotal (item :: rest) = subtotal rest
    ∧ (∀ (uid address onum : String) (coupon : Option Coupon) (s : Store),
        ∃ o : Order,
          (createSupabaseOrder (some uid) (item :: rest) coupon address onum oid
            true true s).1 = Except.ok o) := by
  intro item oid rest h
  have hz : effectiveUnitPrice item.products = 0 := by
    rcases h with h | ⟨ho, hl⟩
    · simp [h, effectiveUnitPrice]
    · cases hp : item.products with
      | none => simp [effectiveUnitPrice]
      | some pr =>
        rw [hp] at ho hl
        simp only [Option.bind] at ho hl
        rcases ho with ho | ho <;> rcases hl with hl | hl <;>
          simp [effectiveUnitPrice, ho, hl]
  refine ⟨hz, ?_, ?_, ?_, ?_⟩
  · rw [mkOrderItem_price, hz]
  · rw [mkOrderItem_total, hz, zero_mul]
  · rw [subtotal_eq_sum, subtotal_eq_sum, List.map_cons, List.sum_cons, hz, zero_mul,
      zero_add]
  · intro uid address onum coupon s
    simp [createSupabaseOrder]

/-- Claim C10, witness: the concrete cart row with no joined product. -/
theorem C10_witness :
    (cartRowU1.products = none ∨
      ((cartRowU1.products.bind Product.offer_price_per_litre = none
          ∨ cartRowU1.products.bind Product.offer_price_per_litre = some 0)
        ∧ (cartRowU1.products.bind Product.price_per_litre = none
          ∨ cartRowU1.products.bind Product.price_per_litre = some 0)))
    ∧ effectiveUnitPrice cartRowU1.products = 0
    ∧ (mkOrderItem "o1" cartRowU1).price_per_litre = 0
    ∧ (mkOrderItem "o1" cartRowU1).total_price = 0
    ∧ subtotal [cartRowU1] = subtotal [] := by
  have h := C10_zero_price_line cartRowU1 "o1" [] (Or.inl rfl)
  exact ⟨Or.inl rfl, h.1, h.2.1, h.2.2.1, h.2.2.2.1⟩

/-- Claim C2, counterexample: a fixed coupon worth 200 on a subtotal of
150 yields a discount of 200, exceeding the subtotal (the code does not
clamp), and a percentage coupon with max_discount_amount set to 0 is
not capped at all because 0 is falsy in the expression
max_discount_amount || Infinity. -/
theorem C2_counterexample :
    discount (some couponFixed200) 150 = 200
    ∧ ¬ discount (some couponFixed200) 150 ≤ 150
    ∧ discount (some couponPctCapZero) 1000 = 500
    ∧ ¬ discount (some couponPctCapZero) 1000 ≤ 0 := by
  refine ⟨rfl, ?_, ?_, ?_⟩
  · show ¬ couponFixed200.discount_value ≤ 150
    norm_num [couponFixed200]
  · norm_num [discount, couponPctCapZero]
  · norm_num [discount, couponPctCapZero]

/-- Claim C2, amended: a percentage discount never exceeds
max_discount_amount when it is set and non-zero (a cap of 0 is falsy and
ignored, and a fixed discount is not clamped and may exceed the
subtotal), and every order persisted by createSupabaseOrder satisfies
final_amount = total_amount minus discount_amount. -/
theorem C2_discount_amended :
    (∀ (c : Coupon) (sub m : ℚ), c.discount_type = DiscountType.percentage →
      c.max_discount_amount = some m → m ≠ 0 → discount (some c) sub ≤ m)
    ∧ (∀ (user : Option String) (cartItems : List CartItem) (coupon : Option Coupon)
        (address onum oid : String) (ok1 ok2 : Bool) (s s2 : Store) (o : Order),
      createSupabaseOrder user cartItems coupon address onum oid ok1 ok2 s
        = (Except.ok o, s2) →
      o.final_amount = o.total_amount - o.discount_amount) := by
  constructor
  · intro c sub m hty hm hmz
    simp [discount, hty, hm, hmz]
  · intro user cartItems coupon address onum oid ok1 ok2 s s2 o h
    cases user with
    | none => simp [createSupabaseOrder] at h
    | some uid =>
      by_cases hc : cartItems.isEmpty
      · simp [createSupabaseOrder, hc] at h
      · by_cases h1 : ok1
        · by_cases h2 : ok2
          · simp [createSupabaseOrder, hc, h1, h2] at h
            obtain ⟨ho, -⟩ := h
            rw [← ho]
            simp [pendingOrder]
          · simp [createSupabaseOrder, hc, h1, h2] at h
        · simp [createSupabaseOrder, hc, h1] at h

/-- Claim C2, witness: the capped percentage coupon of the spec example
and a concrete successful order creation. -/
theorem C2_witness :
    (couponPctCap150.discount_type = DiscountType.percentage
      ∧ couponPctCap150.max_discount_amount = some 150
      ∧ (150 : ℚ) ≠ 0
      ∧ discount (some couponPctCap150) 1000 ≤ 150)
    ∧ (createSupabaseOrder (some "u1") [itemOfferHigh] none "addr1" "ORD-1" "o1"
        true true storeEmpty = (Except.ok orderW2, storeW2)
      ∧ orderW2.final_amount = orderW2.total_amount - orderW2.discount_amount) := by
  have he : createSupabaseOrder (some "u1") [itemOfferHigh] none "addr1" "ORD-1" "o1"
      true true storeEmpty = (Except.ok orderW2, storeW2) := by
    norm_num [createSupabaseOrder, pendingOrder, subtotal, discount, itemOfferHigh,
      prodOfferHigh, jsOrQ, storeEmpty, storeW2, orderW2, Order.mk.injEq, Store.mk.injEq]
  refine ⟨⟨rfl, rfl, by norm_num,
      C2_discount_amended.1 couponPctCap150 1000 150 rfl rfl (by norm_num)⟩,
    he, C2_discount_amended.2 _ _ _ _ _ _ _ _ _ _ _ he⟩

/-- Claim C3, confirmed: an admin product update or deletion writes only
the products table; order creation only appends order_items rows; the
completion action leaves order_items untouched.  Snapshotted OrderItem
rows are therefore never modified by any later operation. -/
theorem C3_snapshot_frame :
    (∀ (s : Store) (pid : String) (f : ProductForm),
      (updateProductMutation s pid f).order_items = s.order_items
      ∧ (updateProductMutation s pid f).orders = s.orders
      ∧ (updateProductMutation s pid f).cart_items = s.cart_items
      ∧ (updateProductMutation s pid f).coupons = s.coupons)
    ∧ (∀ (s : Store) (pid : String),
      (deleteProductMutation s pid).order_items = s.order_items
      ∧ (deleteProductMutation s pid).orders = s.orders
      ∧ (deleteProductMutation s pid).cart_items = s.cart_items
      ∧ (deleteProductMutation s pid).coupons = s.coupons)
    ∧ (∀ (user : Option String) (cartItems : List CartItem) (coupon : Option Coupon)
        (address onum oid : String) (ok1 ok2 : Bool) (s : Store),
      ∃ tail,
        (createSupabaseOrder user cartItems coupon address onum oid ok1 ok2 s).2.order_items
          = s.order_items ++ tail)
    ∧ (∀ (user : Option String) (s : Store),
      (completeMutation user s).order_items = s.order_items) := by
  refine ⟨fun s pid f => ⟨rfl, rfl, rfl, rfl⟩, fun s pid => ⟨rfl, rfl, rfl, rfl⟩, ?_, ?_⟩
  · intro user cartItems coupon address onum oid ok1 ok2 s
    cases user with
    | none => exact ⟨[], by simp [createSupabaseOrder]⟩
    | some uid =>
      by_cases hc : cartItems.isEmpty
      · exact ⟨[], by simp [createSupabaseOrder, hc]⟩
      · by_cases h1 : ok1
        · by_cases h2 : ok2
          · exact ⟨cartItems.map (mkOrderItem oid), by simp [createSupabaseOrder, hc, h1, h2]⟩
          · exact ⟨[], by simp [createSupabaseOrder, hc, h1, h2]⟩
        · exact ⟨[], by simp [createSupabaseOrder, hc, h1]⟩
  · intro user s
    cases user with
    | none => rfl
    | some uid => rfl

/-- Claim C4, counterexample: completing the payment confirmation clears
the cart of the ordering user but performs no write at all on the
orders table; the payment_status of the order stays pending rather than
being set to a cleared or completed value. -/
theorem C4_counterexample :
    (completeMutation (some "u1") storePendingExample).orders = [orderPendingExample]
    ∧ orderPendingExample.payment_status = "pending"
    ∧ "pending" ≠ "completed"
    ∧ "pending" ≠ "cleared"
    ∧ (completeMutation (some "u1") storePendingExample).cart_items = [cartRowU2] := by
  refine ⟨rfl, rfl, by decide, by decide, ?_⟩
  simp [completeMutation, releaseCart, storePendingExample, cartRowU1, cartRowU2]

/-- Claim C4, amended: the completion action deletes every cart_items
row of the ordering user and leaves the orders table untouched; no
operation of the system writes payment_status after order creation, a
newly created order carrying payment_status pending. -/
theorem C4_no_payment_status_write :
    (∀ (user : Option String) (s : Store), (completeMutation user s).orders = s.orders)
    ∧ (∀ (uid : String) (s : Store),
      (completeMutation (some uid) s).cart_items.filter
        (fun ci => decide (ci.user_id = uid)) = [])
    ∧ (∀ (s : Store) (pid : String) (f : ProductForm),
      (updateProductMutation s pid f).orders = s.orders)
    ∧ (∀ (s : Store) (pid : String), (deleteProductMutation s pid).orders = s.orders)
    ∧ (∀ (s : Store) (input : String) (sub : ℚ) (now : Nat),
      (applyCouponMutation s input sub now).2.orders = s.orders)
    ∧ (∀ (user : Option String) (cartItems : List CartItem) (coupon : Option Coupon)
        (address onum oid : String) (ok1 ok2 : Bool) (s : Store),
      (createSupabaseOrder user cartItems coupon address onum oid ok1 ok2 s).2.orders
          = s.orders
        ∨ ∃ o : Order,
          (createSupabaseOrder user cartItems coupon address onum oid ok1 ok2 s).2.orders
              = s.orders ++ [o]
            ∧ o.payment_status = "pending") := by
  refine ⟨?_, ?_, fun s pid f => rfl, fun s pid => rfl, fun s input sub now => rfl, ?_⟩
  · intro user s
    cases user with
    | none => rfl
    | some uid => rfl
  · intro uid s
    simp only [completeMutation, releaseCart]
    rw [List.filter_filter]
    apply List.filter_eq_nil_iff.mpr
    intro ci hci
    by_cases h : ci.user_id = uid <;> simp [h]
  · intro user cartItems coupon address onum oid ok1 ok2 s
    cases user with
    | none => exact Or.inl rfl
    | some uid =>
      by_cases hc : cartItems.isEmpty
      · exact Or.inl (by simp [createSupabaseOrder, hc])
      · by_cases h1 : ok1
        · by_cases h2 : ok2
          · exact Or.inr ⟨pendingOrder uid cartItems coupon address onum oid,
              by simp [createSupabaseOrder, hc, h1, h2], rfl⟩
          · exact Or.inr ⟨pendingOrder uid cartItems coupon address onum oid,
              by simp [createSupabaseOrder, hc, h1, h2], rfl⟩
        · exact Or.inl (by simp [createSupabaseOrder, hc, h1])

/-- Claim C9, confirmed: releasing the cart of a user removes exactly
the cart rows of that user, leaves every other table and every other
user cart row in place, leaves the user with zero cart rows, and is
idempotent. -/
theorem C9_release_cart :
    ∀ (uid : String) (s : Store),
    (releaseCart uid s).cart_items.filter (fun ci => decide (ci.user_id = uid)) = []
    ∧ (∀ ci : CartItem,
        ci ∈ (releaseCart uid s).cart_items ↔ ci ∈ s.cart_items ∧ ci.user_id ≠ uid)
    ∧ releaseCart uid (releaseCart uid s) = releaseCart uid s
    ∧ (releaseCart uid s).orders = s.orders
    ∧ (releaseCart uid s).order_items = s.order_items
    ∧ (releaseCart uid s).products = s.products
    ∧ (releaseCart uid s).coupons = s.coupons := by
  intro uid s
  refine ⟨?_, ?_, ?_, rfl, rfl, rfl, rfl⟩
  · simp only [releaseCart]
    rw [List.filter_filter]
    apply List.filter_eq_nil_iff.mpr
    intro ci hci
    by_cases h : ci.user_id = uid <;> simp [h]
  · intro ci
    simp [releaseCart, List.mem_filter]
  · simp only [releaseCart]
    rw [List.filter_filter]
    simp only [Bool.and_self]

/-- A coupon returned by the source lookup matches the uppercased input
exactly and is active. -/
theorem lookupCoupon_spec (coupons : List Coupon) (input : String) (c : Coupon) :
    lookupCoupon coupons input = some c → c.code = jsToUpper input ∧ c.is_active = true := by
  intro h
  have hp := List.find?_some h
  simp only [Bool.and_eq_true, decide_eq_true_eq] at hp
  exact hp

/-- Claim C5, counterexample: the lookup is an exact match against the
uppercased input, not a case-insensitive match, so an active coupon
stored with the lowercase code save10 is rejected as InvalidCode even
though a case-insensitive match finds it; and a min_order_amount set to
0 is falsy, so the below-minimum check is skipped where the claim
requires a rejection for subtotal smaller than the minimum. -/
theorem C5_counterexample :
    validateCoupon [couponLowerCode] "save10" 1000 0
        = Except.error CouponRejection.invalidCode
    ∧ lookupCouponClaim [couponLowerCode] "save10" = some couponLowerCode
    ∧ couponLowerCode.min_order_amount = none
    ∧ couponMinZero.min_order_amount = some 0
    ∧ (-5 : ℚ) < 0
    ∧ validateCoupon [couponMinZero] "MINZERO" (-5) 0 = Except.ok couponMinZero := by
  refine ⟨?_, ?_, rfl, rfl, by norm_num, ?_⟩
  · simp [validateCoupon, lookupCoupon, couponLowerCode, jsToUpper]
  · simp [lookupCouponClaim, couponLowerCode, jsToUpper]
  · simp [validateCoupon, lookupCoupon, couponMinZero, jsToUpper, minCheckFails,
      expiryCheckFails]

/-- Claim C5, amended: validation looks up an active coupon by exact
match of the stored code against the uppercased input (insensitive to
the case of the input, but a code stored in lowercase can never match),
then checks the minimum order amount when min_order_amount is set and
non-zero, then the expiry, short-circuiting in that order, and a run of
the mutation leaves the store unchanged. -/
theorem C5_validate_coupon :
    (∀ (coupons : List Coupon) (input : String) (c : Coupon),
      lookupCoupon coupons input = some c → c.code = jsToUpper input ∧ c.is_active = true)
    ∧ (∀ (coupons : List Coupon) (input : String) (sub : ℚ) (now : Nat),
      lookupCoupon coupons input = none →
        validateCoupon coupons input sub now = Except.error CouponRejection.invalidCode)
    ∧ (∀ (coupons : List Coupon) (input : String) (sub : ℚ) (now : Nat) (c : Coupon)
        (m : ℚ),
      lookupCoupon coupons input = some c → c.min_order_amount = some m → m ≠ 0 →
        sub < m →
        validateCoupon coupons input sub now
          = Except.error (CouponRejection.belowMinimum m))
    ∧ (∀ (coupons : List Coupon) (input : String) (sub : ℚ) (now : Nat) (c : Coupon)
        (t : Nat),
      lookupCoupon coupons input = some c → minCheckFails c sub = false →
        c.valid_until = some t → t < now →
        validateCoupon coupons input sub now = Except.error CouponRejection.expired)
    ∧ (∀ (coupons : List Coupon) (input : String) (sub : ℚ) (now : Nat) (c : Coupon),
      lookupCoupon coupons input = some c → minCheckFails c sub = false →
        expiryCheckFails c now = false →
        validateCoupon coupons input sub now = Except.ok c)
    ∧ (∀ (s : Store) (input : String) (sub : ℚ) (now : Nat),
      (applyCouponMutation s input sub now).2 = s) := by
  refine ⟨lookupCoupon_spec, ?_, ?_, ?_, ?_, fun s input sub now => rfl⟩
  · intro coupons input sub now h
    simp [validateCoupon, h]
  · intro coupons input sub now c m hl hm hmz hsub
    have hmin : minCheckFails c sub = true := by
      simp [minCheckFails, hm, hmz, hsub]
    simp [validateCoupon, hl, hmin, hm]
  · intro coupons input sub now c t hl hmin hv hnow
    have hexp : expiryCheckFails c now = true := by
      simp [expiryCheckFails, hv, hnow]
    simp [validateCoupon, hl, hmin, hexp]
  · intro coupons input sub now c hl hmin hexp
    simp [validateCoupon, hl, hmin, hexp]

/-- Claim C5, witness: each branch of the validator exercised on
concrete coupons. -/
theorem C5_witness :
    (lookupCoupon [couponMin500] "SAVEBIG" = some couponMin500
      ∧ couponMin500.code = jsToUpper "SAVEBIG" ∧ couponMin500.is_active = true)
    ∧ (lookupCoupon [] "NOPE" = none
      ∧ validateCoupon [] "NOPE" 100 0 = Except.error CouponRejection.invalidCode)
    ∧ (couponMin500.min_order_amount = some 500 ∧ (500 : ℚ) ≠ 0 ∧ (100 : ℚ) < 500
      ∧ validateCoupon [couponMin500] "SAVEBIG" 100 0
          = Except.error (CouponRejection.belowMinimum 500))
    ∧ (minCheckFails couponExpired 100 = false ∧ couponExpired.valid_until = some 5
      ∧ 5 < 10
      ∧ validateCoupon [couponExpired] "OLDCODE" 100 10
          = Except.error CouponRejection.expired)
    ∧ (minCheckFails couponPctCap150 50 = false
      ∧ expiryCheckFails couponPctCap150 0 = false
      ∧ validateCoupon [couponPctCap150] "SAVE20" 50 0 = Except.ok couponPctCap150)
    ∧ (applyCouponMutation storeEmpty "NOPE" 0 0).2 = storeEmpty := by
  have hlook1 : lookupCoupon [couponMin500] "SAVEBIG" = some couponMin500 := by
    simp [lookupCoupon, couponMin500, jsToUpper]
  have hlook2 : lookupCoupon [] "NOPE" = none := rfl
  have hlook3 : lookupCoupon [couponExpired] "OLDCODE" = some couponExpired := by
    simp [lookupCoupon, couponExpired, jsToUpper]
  have hlook4 : lookupCoupon [couponPctCap150] "SAVE20" = some couponPctCap150 := by
    simp [lookupCoupon, couponPctCap150, jsToUpper]
  refine ⟨⟨hlook1, (C5_validate_coupon.1 _ _ _ hlook1).1, (C5_validate_coupon.1 _ _ _ hlook1).2⟩,
    ⟨hlook2, C5_validate_coupon.2.1 _ _ 100 0 hlook2⟩,
    ⟨rfl, by norm_num, by norm_num,
      C5_validate_coupon.2.2.1 _ _ 100 0 couponMin500 500 hlook1 rfl (by norm_num) (by norm_num)⟩,
    ⟨by decide, rfl, by decide,
      C5_validate_coupon.2.2.2.1 _ _ 100 10 couponExpired 5 hlook3 (by decide) rfl (by decide)⟩,
    ⟨by decide, by decide,
      C5_validate_coupon.2.2.2.2.1 _ _ 50 0 couponPctCap150 hlook4 (by decide) (by decide)⟩,
    C5_validate_coupon.2.2.2.2.2 storeEmpty "NOPE" 0 0⟩

/-- Claim C6, confirmed: with a valid address and an empty cart the
order placement fails with the empty cart error, with a short address it
fails with the validation error, and in both cases the store is
returned unchanged, so no Order row and no OrderItem row is written. -/
theorem C6_place_order_guards :
    ∀ (uid address : String) (cartItems : List CartItem) (coupon : Option Coupon)
      (onum oid : String) (ok1 ok2 : Bool) (s : Store),
    (10 ≤ address.length → cartItems = [] →
      placeOrder (some uid) address cartItems coupon onum oid ok1 ok2 s
        = (Except.error PlaceError.cartEmpty, s))
    ∧ (address.length < 10 →
      placeOrder (some uid) address cartItems coupon onum oid ok1 ok2 s
        = (Except.error PlaceError.validationAddress, s)) := by
  intro uid address cartItems coupon onum oid ok1 ok2 s
  constructor
  · intro hlen hcart
    have hnl : ¬ address.length < 10 := by omega
    simp [placeOrder, hnl, hcart]
  · intro hlen
    simp [placeOrder, hlen]

/-- Claim C6, witness: a concrete empty cart rejection and a concrete
short address rejection, both leaving the empty store unchanged. -/
theorem C6_witness :
    (10 ≤ ("12 Long Street, Oil Town" : String).length
      ∧ placeOrder (some "u1") "12 Long Street, Oil Town" [] none "ORD-1" "o1" true true
          storeEmpty = (Except.error PlaceError.cartEmpty, storeEmpty))
    ∧ (("short" : String).length < 10
      ∧ placeOrder (some "u1") "short" [cartRowU1] none "ORD-1" "o1" true true storeEmpty
          = (Except.error PlaceError.validationAddress, storeEmpty)) := by
  refine ⟨⟨by decide, ?_⟩, ⟨by decide, ?_⟩⟩
  · exact (C6_place_order_guards "u1" "12 Long Street, Oil Town" [] none "ORD-1" "o1"
      true true storeEmpty).1 (by decide) rfl
  · exact (C6_place_order_guards "u1" "short" [cartRowU1] none "ORD-1" "o1"
      true true storeEmpty).2 (by decide)

/-- Claim C7, confirmed: when the order insert succeeds and the items
insert fails, createSupabaseOrder raises the store error and leaves the
pending order row persisted with no order_items rows added. -/
theorem C7_orphaned_order :
    ∀ (uid : String) (cartItems : List CartItem) (coupon : Option Coupon)
      (address onum oid : String) (s : Store),
    cartItems ≠ [] →
    (createSupabaseOrder (some uid) cartItems coupon address onum oid true false s).1
        = Except.error OrderError.itemsInsertFailed
    ∧ (createSupabaseOrder (some uid) cartItems coupon address onum oid true false s).2.orders
        = s.orders ++ [pendingOrder uid cartItems coupon address onum oid]
    ∧ (createSupabaseOrder (some uid) cartItems coupon address onum oid true false s).2.order_items
        = s.order_items
    ∧ (pendingOrder uid cartItems coupon address onum oid).status = "pending"
    ∧ (pendingOrder uid cartItems coupon address onum oid).payment_status = "pending" := by
  intro uid cartItems coupon address onum oid s hne
  have hc : cartItems.isEmpty = false := by
    cases cartItems with
    | nil => exact absurd rfl hne
    | cons x xs => rfl
  refine ⟨?_, ?_, ?_, rfl, rfl⟩ <;> simp [createSupabaseOrder, hc]

/-- Claim C7, witness: a concrete failed items insert on the empty
store, leaving the orphaned pending order orderW7. -/
theorem C7_witness :
    ([cartRowU1] : List CartItem) ≠ []
    ∧ (createSupabaseOrder (some "u1") [cartRowU1] none "addr1" "ORD-1" "o1" true false
        storeEmpty).1 = Except.error OrderError.itemsInsertFailed
    ∧ (createSupabaseOrder (some "u1") [cartRowU1] none "addr1" "ORD-1" "o1" true false
        storeEmpty).2.orders = [orderW7]
    ∧ (createSupabaseOrder (some "u1") [cartRowU1] none "addr1" "ORD-1" "o1" true false
        storeEmpty).2.order_items = [] := by
  have h := C7_orphaned_order "u1" [cartRowU1] none "addr1" "ORD-1" "o1" storeEmpty
    (by simp)
  have hw : pendingOrder "u1" [cartRowU1] none "addr1" "ORD-1" "o1" = orderW7 := by
    simp [pendingOrder, orderW7, subtotal, discount, cartRowU1, jsOrQ, Order.mk.injEq]
  refine ⟨by simp, h.1, ?_, ?_⟩
  · rw [h.2.1, hw]
    simp [storeEmpty]
  · rw [h.2.2.1]
    rfl

/-- Invariant of the payment confirmation page: a recorded hand-off
implies sending is set, happened no later than now and captured a
non-empty reference; completion enablement implies a hand-off at least
3000 ms old; a completion implies a hand-off at least 3000 ms before
the completion instant. -/
def pcInv (st : PCState) : Prop :=
  (∀ ts, st.sentAt = some ts →
    st.sending = true ∧ ts ≤ st.now ∧ ∃ u, st.sentUtr = some u ∧ u ≠ "")
  ∧ (st.canComplete = true → ∃ ts, st.sentAt = some ts ∧ ts + 3000 ≤ st.now)
  ∧ (∀ tc, st.completedAt = some tc →
    tc ≤ st.now ∧ ∃ ts, st.sentAt = some ts ∧ ts + 3000 ≤ tc)

/-- The initial page state satisfies the invariant. -/
theorem pcInv_init : pcInv pcInit := by
  refine ⟨?_, ?_, ?_⟩
  · intro ts h
    simp [pcInit] at h
  · intro h
    simp [pcInit] at h
  · intro tc h
    simp [pcInit] at h

/-- Every step of the payment confirmation page preserves the invariant. -/
theorem pcInv_step {st st2 : PCState} {t : Nat} {e : PCEvent}
    (hinv : pcInv st) (h : pcStep st t e = some st2) : pcInv st2 := by
  obtain ⟨h1, h2, h3⟩ := hinv
  unfold pcStep at h
  by_cases ht : t < st.now
  · simp [ht] at h
  · have htn : st.now ≤ t := Nat.le_of_not_lt ht
    rw [if_neg ht] at h
    cases e with
    | setUtr v =>
      simp only [Option.some.injEq] at h
      subst h
      refine ⟨?_, ?_, ?_⟩
      · intro ts hts
        obtain ⟨hs, hle, hu⟩ := h1 ts hts
        exact ⟨hs, le_trans hle htn, hu⟩
      · intro hcc
        obtain ⟨ts, hts, hle⟩ := h2 hcc
        exact ⟨ts, hts, le_trans hle htn⟩
      · intro tc htc
        obtain ⟨hle, rest⟩ := h3 tc htc
        exact ⟨le_trans hle htn, rest⟩
    | clickSend =>
      by_cases hg : st.utr ≠ "" ∧ st.sending = false
      · rw [if_pos hg] at h
        simp only [Option.some.injEq] at h
        subst h
        refine ⟨?_, ?_, ?_⟩
        · intro ts hts
          simp only [Option.some.injEq] at hts
          subst hts
          exact ⟨rfl, le_refl t, ⟨st.utr, rfl, hg.1⟩⟩
        · intro hcc
          obtain ⟨ts, hts, -⟩ := h2 hcc
          obtain ⟨hs, -, -⟩ := h1 ts hts
          rw [hg.2] at hs
          exact absurd hs (by simp)
        · intro tc htc
          obtain ⟨-, ts, hts, -⟩ := h3 tc htc
          obtain ⟨hs, -, -⟩ := h1 ts hts
          rw [hg.2] at hs
          exact absurd hs (by simp)
      · rw [if_neg hg] at h
        exact absurd h (by simp)
    | timerFire =>
      cases hsa : st.sentAt with
      | none =>
        exact Option.noConfusion (hsa ▸ h)
      | some ts0 =>
        simp only [hsa] at h
        by_cases hg : st.sending = true ∧ ts0 + 3000 ≤ t
        · rw [if_pos hg] at h
          simp only [Option.some.injEq] at h
          subst h
          refine ⟨?_, ?_, ?_⟩
          · intro ts hts
            simp only [Option.some.injEq] at hts
            subst hts
            obtain ⟨hs, hle, hu⟩ := h1 ts0 hsa
            exact ⟨hs, le_trans hle htn, hu⟩
          · intro _
            exact ⟨ts0, rfl, hg.2⟩
          · intro tc htc
            obtain ⟨hle, ts, hts, hrest⟩ := h3 tc htc
            rw [hsa] at hts
            simp only [Option.some.injEq] at hts
            subst hts
            exact ⟨le_trans hle htn, ts0, rfl, hrest⟩
        · rw [if_neg hg] at h
          exact absurd h (by simp)
    | clickComplete =>
      by_cases hg : st.canComplete = true
      · rw [if_pos hg] at h
        simp only [Option.some.injEq] at h
        subst h
        refine ⟨?_, ?_, ?_⟩
        · intro ts hts
          obtain ⟨hs, hle, hu⟩ := h1 ts hts
          exact ⟨hs, le_trans hle htn, hu⟩
        · intro hcc
          obtain ⟨ts, hts, hle⟩ := h2 hcc
          exact ⟨ts, hts, le_trans hle htn⟩
        · intro tc htc
          simp only [Option.some.injEq] at htc
          subst htc
          obtain ⟨ts, hts, hle⟩ := h2 hg
          exact ⟨Nat.le_refl _, ts, hts, le_trans hle htn⟩
      · rw [if_neg hg] at h
        exact absurd h (by simp)

/-- Folding steps over an already failed run stays failed. -/
theorem pcFoldl_none (l : List (Nat × PCEvent)) :
    l.foldl (fun a e => a.bind (fun s0 => pcStep s0 e.1 e.2)) none = none := by
  induction l with
  | nil => rfl
  | cons e es ih => exact ih

/-- The invariant holds of the final state of any successful run. -/
theorem pcRun_inv :
    ∀ (tr : List (Nat × PCEvent)) (acc st : PCState), pcInv acc →
    tr.foldl (fun a e => a.bind (fun s0 => pcStep s0 e.1 e.2)) (some acc) = some st →
    pcInv st := by
  intro tr
  induction tr with
  | nil =>
    intro acc st hacc h
    simp only [List.foldl_nil, Option.some.injEq] at h
    subst h
    exact hacc
  | cons e es ih =>
    intro acc st hacc h
    simp only [List.foldl_cons] at h
    have h2 : es.foldl (fun a e => a.bind (fun s0 => pcStep s0 e.1 e.2))
        (pcStep acc e.1 e.2) = some st := h
    cases hstep : pcStep acc e.1 e.2 with
    | none =>
      rw [hstep] at h2
      rw [pcFoldl_none] at h2
      exact absurd h2 (by simp)
    | some st1 =>
      rw [hstep] at h2
      exact ih st1 st (pcInv_step hacc hstep) h2

/-- Claim C8, confirmed: in any run of the payment confirmation page
that reaches completion at instant tc, a hand-off happened at some
earlier instant ts carrying a non-empty reference string, and at least
3000 ms separate the hand-off from the completion. -/
theorem C8_completion_gated :
    ∀ (tr : List (Nat × PCEvent)) (st : PCState) (tc : Nat),
    pcRun tr = some st → st.completedAt = some tc →
    ∃ (ts : Nat) (u : String),
      st.sentAt = some ts ∧ st.sentUtr = some u ∧ u ≠ "" ∧ ts + 3000 ≤ tc := by
  intro tr st tc hrun hcomp
  have hinv : pcInv st := pcRun_inv tr pcInit st pcInv_init hrun
  obtain ⟨-, ts, hts, hle⟩ := hinv.2.2 tc hcomp
  obtain ⟨-, -, u, hu, hne⟩ := hinv.1 ts hts
  exact ⟨ts, u, hts, hu, hne, hle⟩

/-- Claim C8, witness: the concrete trace pcTraceW enters the reference
TX1, sends at instant 1, unlocks at 3001 and completes at 3002. -/
theorem C8_witness :
    pcRun pcTraceW = some pcStateW
    ∧ pcStateW.completedAt = some 3002
    ∧ ∃ (ts : Nat) (u : String),
        pcStateW.sentAt = some ts ∧ pcStateW.sentUtr = some u ∧ u ≠ ""
          ∧ ts + 3000 ≤ 3002 := by
  have hrun : pcRun pcTraceW = some pcStateW := by decide
  exact ⟨hrun, rfl, C8_completion_gated pcTraceW pcStateW 3002 hrun rfl⟩
